import Mathlib

/-!
Verification of the browser-pool / readiness-pipeline core of the
CompanySummery screenshot service.

The development shallowly embeds:
* `BrowserPool.acquire_context` / `BrowserPool.release_context` and the
  semaphore accounting they perform (src/app/services/browser_pool.py);
* the pool viewed as a transition system over the semaphore state,
  for the concurrency-bound claims;
* the staged readiness pipelines of `capture_screenshot._do_capture`
  (src/app/services/screenshot_service.py) and
  `extract_images._do_extract` (src/app/services/image_extraction_service.py)
  as explicit stage sequences;
* the `WAIT_FOR_CONTENT_JS` readiness probe over a static DOM snapshot;
* the post-load delay clamp;
* the route-level error classification of `/screenshot`
  (src/app/routes/screenshot.py);
* the pure extraction transform: `_filter_images`, truncation to
  `maxImages`, `_classify_images`, and the result counts.
-/

namespace CompanySummery

/-! ### Browser pool: `acquire_context` (src/app/services/browser_pool.py, lines 51-80) -/

/-- Result of one `self._browser.new_context(...)` call inside
`BrowserPool.acquire_context`: either a fresh context handle (identified
by a number) or a raised exception (identified by its message). -/
inductive CtxAttempt where
  | ok (ctxId : Nat)
  | fail (err : String)
deriving DecidableEq, Repr

/-- Outcome of one `BrowserPool.acquire_context` call together with its
semaphore accounting: `slotsAcquired` counts the `self._semaphore.acquire()`
calls and `slotsReleased` the `self._semaphore.release()` calls performed
inside `acquire_context` itself.  `result` is the returned context or the
propagated exception. -/
structure AcquireOutcome where
  result : Except String Nat
  slotsAcquired : Nat
  slotsReleased : Nat
deriving Repr

/-- Shallow embedding of `BrowserPool.acquire_context`.  The
`for attempt in range(2)` loop is unrolled: `ensure1`/`try1` are the
outcomes of `_ensure_browser()` and `new_context()` on attempt 0, and
`ensure2`/`try2` on attempt 1 (the retry, after the browser handle was
discarded).  A first `new_context` failure continues the loop; a failure
of `_ensure_browser` or of the second `new_context` escapes the loop,
where the outer `except` releases the semaphore slot and re-raises.
Browser-handle bookkeeping (close, relaunch) does not touch the
semaphore and is elided. -/
def acquire_context (ensure1 : Except String Unit) (try1 : CtxAttempt)
    (ensure2 : Except String Unit) (try2 : CtxAttempt) : AcquireOutcome :=
  match ensure1 with
  | .error e => ⟨.error e, 1, 1⟩
  | .ok _ =>
    match try1 with
    | .ok c => ⟨.ok c, 1, 0⟩
    | .fail _ =>
      match ensure2 with
      | .error e => ⟨.error e, 1, 1⟩
      | .ok _ =>
        match try2 with
        | .ok c => ⟨.ok c, 1, 0⟩
        | .fail e => ⟨.error e, 1, 1⟩

/-! ### Browser pool: `release_context` (lines 82-88) -/

/-- Result of the `context.close()` call inside `release_context`. -/
inductive CloseResult where
  | ok
  | fail (err : String)
deriving DecidableEq, Repr

/-- Outcome of one `BrowserPool.release_context` call: `result` is what
the call itself raises or returns, `slotsReleased` counts the
`self._semaphore.release()` calls it performs. -/
structure ReleaseOutcome where
  result : Except String Unit
  slotsReleased : Nat
deriving Repr

/-- Shallow embedding of `BrowserPool.release_context`: the close error
is swallowed by `except Exception` (logged only), and the `finally`
block releases the semaphore in every case. -/
def release_context (close : CloseResult) : ReleaseOutcome :=
  match close with
  | .ok => ⟨.ok (), 1⟩
  | .fail _ => ⟨.ok (), 1⟩

/-! ### Browser pool as a transition system (semaphore of capacity N) -/

/-- Pool state observed across interleaved `acquire_context` /
`release_context` calls: `available` free semaphore slots and `held`
currently leased (open) contexts. -/
structure PoolState where
  available : Nat
  held : Nat
deriving DecidableEq, Repr

/-- Initial state for capacity `n`:
`asyncio.Semaphore(settings.screenshot_max_concurrent)` full, no
contexts open. -/
def PoolState.start (n : Nat) : PoolState := ⟨n, 0⟩

/-- Interleaved pool events.  A successful `acquire_context` consumes a
semaphore slot and opens one context; a failed one consumes a slot and
returns it within the same call (net zero); `release_context` closes a
context and returns its slot.  `asyncio.Semaphore.acquire` proceeds only
when a slot is free — otherwise the caller parks on the semaphore. -/
inductive PoolStep : PoolState → PoolState → Prop where
  | acquireOk {s : PoolState} (h : 0 < s.available) :
      PoolStep s ⟨s.available - 1, s.held + 1⟩
  | acquireFail {s : PoolState} (h : 0 < s.available) :
      PoolStep s s
  | release {s : PoolState} (h : 0 < s.held) :
      PoolStep s ⟨s.available + 1, s.held - 1⟩

/-- States reachable from the capacity-`n` initial state. -/
inductive PoolReachable (n : Nat) : PoolState → Prop where
  | start : PoolReachable n (PoolState.start n)
  | step {s t : PoolState} : PoolReachable n s → PoolStep s t → PoolReachable n t

/-- Semaphore invariant: free slots plus open contexts always equal the
capacity. -/
theorem poolReachable_invariant {n : Nat} {s : PoolState}
    (h : PoolReachable n s) : s.available + s.held = n := by
  induction h with
  | start => simp [PoolState.start]
  | step _ hstep ih =>
    cases hstep with
    | acquireOk hav =>
      show _ - 1 + (_ + 1) = n
      omega
    | acquireFail hav => exact ih
    | release hheld =>
      show _ + 1 + (_ - 1) = n
      omega

/-- C1: if context creation fails on the first attempt and again on the
retry, `acquire_context` propagates the failure and releases the
concurrency slot it acquired exactly once — no leak and no
double-release. -/
theorem acquire_context_double_failure (e1 e2 : String)
    (ensure1 ensure2 : Except String Unit) (try1 try2 : CtxAttempt)
    (hens1 : ensure1 = .ok ()) (h1 : try1 = .fail e1)
    (hens2 : ensure2 = .ok ()) (h2 : try2 = .fail e2) :
    (acquire_context ensure1 try1 ensure2 try2).result = .error e2 ∧
    (acquire_context ensure1 try1 ensure2 try2).slotsAcquired = 1 ∧
    (acquire_context ensure1 try1 ensure2 try2).slotsReleased = 1 := by
  subst hens1; subst h1; subst hens2; subst h2
  exact ⟨rfl, rfl, rfl⟩

/-- Witness for `acquire_context_double_failure` at a concrete pair of
failed attempts. -/
theorem acquire_context_double_failure_witness :
    (acquire_context (.ok ()) (.fail ("boom")) (.ok ())
      (.fail ("crash"))).result = .error ("crash") ∧
    (acquire_context (.ok ()) (.fail ("boom")) (.ok ())
      (.fail ("crash"))).slotsAcquired = 1 ∧
    (acquire_context (.ok ()) (.fail ("boom")) (.ok ())
      (.fail ("crash"))).slotsReleased = 1 :=
  acquire_context_double_failure ("boom") ("crash") _ _ _ _ rfl rfl rfl rfl

/-- C4: `release_context` releases the semaphore slot exactly once in
every case — also when closing the context raises — and never raises to
the caller: the close error is swallowed. -/
theorem release_context_unconditional (close : CloseResult) :
    (release_context close).slotsReleased = 1 ∧
    (release_context close).result = .ok () := by
  cases close <;> exact ⟨rfl, rfl⟩

/-- C2: in every reachable pool state at most `n` contexts are open; and
when `n` contexts are open the semaphore is empty, so no acquire step is
enabled — the only possible transition is a release, after which `n - 1`
contexts remain open and exactly one slot is free.  Hence an
(n+1)-th concurrent acquire can only resolve after one of the first `n`
callers releases. -/
theorem pool_at_most_n_contexts (n : Nat) (s : PoolState)
    (h : PoolReachable n s) :
    s.held ≤ n ∧
    (s.held = n → s.available = 0 ∧
      ∀ t : PoolState, PoolStep s t → t.held + 1 = n ∧ t.available = 1) := by
  have hinv := poolReachable_invariant h
  refine ⟨by omega, fun hfull => ⟨by omega, fun t hstep => ?_⟩⟩
  cases hstep with
  | acquireOk hav => omega
  | acquireFail hav => omega
  | release hheld =>
    refine ⟨?_, ?_⟩
    · show s.held - 1 + 1 = n
      omega
    · show s.available + 1 = 1
      omega

/-- Witness for `pool_at_most_n_contexts`: the state after one
successful acquire on a capacity-1 pool is reachable and holds at most
one context. -/
theorem pool_at_most_n_contexts_witness :
    (PoolState.mk 0 1).held ≤ 1 :=
  (pool_at_most_n_contexts 1 ⟨0, 1⟩
    (PoolReachable.step PoolReachable.start
      (PoolStep.acquireOk (by decide)))).1

/-! ### Post-load delay clamp (src/app/services/screenshot_service.py, lines 144-150) -/

/-- Shallow embedding of the post-load delay logic of
`capture_screenshot._do_capture`: `total_delay = max(delay, post_load)`;
a sleep happens only when `total_delay > 0`, for
`min(total_delay, 10000)` milliseconds.  Delays are nonnegative
millisecond counts (the route validates `delay` into 0..30000 and the
configured default is 5000). -/
def effectivePostLoadDelay (delay postLoad : Nat) : Nat :=
  let totalDelay := max delay postLoad
  if 0 < totalDelay then min totalDelay 10000 else 0

/-- C7: the effective post-load settle wait equals
`min(max(delay, postLoad), 10000)`; in particular a requested delay of
999999 ms with a 5000 ms default yields exactly 10000 ms. -/
theorem effectivePostLoadDelay_clamped (delay postLoad : Nat) :
    effectivePostLoadDelay delay postLoad = min (max delay postLoad) 10000 ∧
    effectivePostLoadDelay 999999 5000 = 10000 := by
  constructor
  · show (if 0 < max delay postLoad then min (max delay postLoad) 10000 else 0) = _
    split <;> omega
  · rfl

/-! ### Route-level error classification (src/app/routes/screenshot.py, lines 55-72) -/

/-- The exception classes the `/screenshot` route distinguishes:
`asyncio.TimeoutError` (the class raised by `asyncio.wait_for` on
expiry) versus every other exception. -/
inductive PyExc where
  | timeoutError
  | otherExc (msg : String)
deriving DecidableEq, Repr

/-- The error payload the `/screenshot` route returns to the caller. -/
structure ErrorResponse where
  status : Nat
  timeout : Bool
  retryable : Bool
deriving DecidableEq, Repr

/-- Shallow embedding of the `except` clauses of the `/screenshot`
route: `except asyncio.TimeoutError` produces a 504 with
`timeout=true, retryable=true`; `except Exception` produces a 500 with
`retryable=false` (and no timeout marker). -/
def classifyScreenshotError : PyExc → ErrorResponse
  | .timeoutError => ⟨504, true, true⟩
  | .otherExc _ => ⟨500, false, false⟩

/-- The exception produced when the capture-specific
`asyncio.wait_for(page.screenshot(...), timeout=capture_timeout_ms/1000)`
(screenshot_service.py lines 163-166) expires: `asyncio.wait_for` raises
`asyncio.TimeoutError`, which propagates unchanged out of `_do_capture`
and out of `capture_screenshot` (whose
`except asyncio.TimeoutError: raise` re-raises it). -/
def captureTimeoutExc : PyExc := .timeoutError

/-- The exception produced when the overall
`asyncio.wait_for(_do_capture(), timeout=overall_timeout)`
(screenshot_service.py line 175) expires. -/
def overallTimeoutExc : PyExc := .timeoutError

/-- C5 counterexample: the expiry of the capture-specific
`asyncio.wait_for` wrapper is classified by the route exactly like the
overall timeout — a 504 retryable timeout — and NOT as a hard
non-timeout capture error, refuting the claimed distinction. -/
theorem capture_timeout_not_distinct :
    classifyScreenshotError captureTimeoutExc =
      classifyScreenshotError overallTimeoutExc ∧
    (classifyScreenshotError captureTimeoutExc).timeout = true ∧
    (classifyScreenshotError captureTimeoutExc).retryable = true :=
  ⟨rfl, rfl, rfl⟩

/-- C5 amended: when the capture-specific `asyncio.wait_for` around the
final screenshot step expires it raises `asyncio.TimeoutError`, the same
exception class as the overall timeout, so the route reports it as a
retryable 504 timeout; only a non-`TimeoutError` failure of the
screenshot call (such as the browser-side screenshot timeout error) is
reported as a non-timeout, non-retryable 500 capture error. -/
theorem capture_timeout_same_as_overall (msg : String) :
    classifyScreenshotError captureTimeoutExc = ⟨504, true, true⟩ ∧
    classifyScreenshotError overallTimeoutExc = ⟨504, true, true⟩ ∧
    classifyScreenshotError (.otherExc msg) = ⟨500, false, false⟩ :=
  ⟨rfl, rfl, rfl⟩

/-! ### The two staged readiness pipelines (C3) -/

/-- One stage of a staged readiness pipeline, as executed inside a
leased context before the final capture / extraction step.  The
parameters record the timeouts, scripts and script constants the source
passes at that stage. -/
inductive WaitStage where
  | gotoCommit (timeoutMs : Nat)
  | loadState (timeoutMs : Nat)
  | contentProbe (budgetMs : Nat)
  | idleRecheckIfNotReady (timeoutMs : Nat)
  | networkIdle (timeoutMs : Nat)
  | bodyHtmlProbe (minHtmlLen budgetMs : Nat)
  | autoScroll (stepPct intervalMs maxPx budgetMs : Nat)
  | imageLoadWait (perImageCapMs : Nat)
  | postLoadDelay (useCallerDelay : Bool) (capMs : Nat)
deriving DecidableEq, Repr

/-- The stage sequence executed by `capture_screenshot._do_capture`
before the screenshot call (screenshot_service.py lines 93-150):
navigate with `commit`; wait for the `load` state (30 s, advisory); run
`WAIT_FOR_CONTENT_JS` (20 s internal budget); if not ready, wait for
`networkidle` (10 s, advisory) and re-run the probe; `AUTO_SCROLL_JS`
(80% viewport steps, 200 ms, 15000 px, 40 s); `networkidle` (10 s,
advisory); `WAIT_FOR_IMAGES_JS` (3 s per image); post-load delay using
`max(delay, post_load)` clamped to 10 s. -/
def captureStages (navTimeoutMs : Nat) : List WaitStage :=
  [ .gotoCommit navTimeoutMs
  , .loadState 30000
  , .contentProbe 20000
  , .idleRecheckIfNotReady 10000
  , .autoScroll 80 200 15000 40000
  , .networkIdle 10000
  , .imageLoadWait 3000
  , .postLoadDelay true 10000 ]

/-- The stage sequence executed by `extract_images._do_extract` before
the in-page extraction query (image_extraction_service.py lines
208-291): navigate with `commit`; wait for `load` (30 s, advisory);
wait for `networkidle` unconditionally (15 s, advisory); poll
`document.body.innerHTML.length > 500` (10 s budget); auto-scroll
(identical constants); `networkidle` (10 s, advisory); per-image load
wait (3 s per image); post-load delay from the configured default only
(the caller delay is not threaded through), clamped to 10 s. -/
def extractStages (navTimeoutMs : Nat) : List WaitStage :=
  [ .gotoCommit navTimeoutMs
  , .loadState 30000
  , .networkIdle 15000
  , .bodyHtmlProbe 500 10000
  , .autoScroll 80 200 15000 40000
  , .networkIdle 10000
  , .imageLoadWait 3000
  , .postLoadDelay false 10000 ]

/-- C3 counterexample: at the configured navigation timeout of 60000 ms
the two operations do NOT execute the same stage sequence — the
pipelines differ. -/
theorem capture_extract_pipelines_differ :
    captureStages 60000 ≠ extractStages 60000 := by decide

/-- C3 amended: for every navigation timeout the two pipelines share the
navigation-with-commit and load-event stages and the
auto-scroll / post-scroll network-idle / per-image-load stages, in the
same order with the same parameters, but they differ in the readiness
step — capture runs the SPA content probe with a conditional
network-idle re-probe, extraction an unconditional 15 s network idle
followed by a body-HTML-length poll — and in the post-load delay, which
honors the caller-requested delay only in capture. -/
theorem pipelines_share_outer_stages (navTimeoutMs : Nat) :
    (captureStages navTimeoutMs).take 2 = (extractStages navTimeoutMs).take 2 ∧
    ((captureStages navTimeoutMs).drop 4).take 3 =
      ((extractStages navTimeoutMs).drop 4).take 3 ∧
    ((captureStages navTimeoutMs).drop 2).take 2 =
      [.contentProbe 20000, .idleRecheckIfNotReady 10000] ∧
    ((extractStages navTimeoutMs).drop 2).take 2 =
      [.networkIdle 15000, .bodyHtmlProbe 500 10000] ∧
    (captureStages navTimeoutMs).drop 7 = [.postLoadDelay true 10000] ∧
    (extractStages navTimeoutMs).drop 7 = [.postLoadDelay false 10000] ∧
    ([.contentProbe 20000, .idleRecheckIfNotReady 10000] : List WaitStage) ≠
      [.networkIdle 15000, .bodyHtmlProbe 500 10000] := by
  refine ⟨rfl, rfl, rfl, rfl, rfl, rfl, ?_⟩
  decide

/-- Witness for `pipelines_share_outer_stages` at the configured
60000 ms navigation timeout: the shared two-stage prefix. -/
theorem pipelines_share_outer_stages_witness :
    (captureStages 60000).take 2 = (extractStages 60000).take 2 :=
  (pipelines_share_outer_stages 60000).1

/-! ### The `WAIT_FOR_CONTENT_JS` readiness probe (screenshot_service.py, lines 11-46) -/

/-- Observable state of one SPA-root element for the readiness probe:
the element exists (`document.querySelector(sel)` returned it), with
this many children, this many characters of trimmed `innerText`, and
this many descendant `img[src]` elements with a nonempty `src`. -/
structure RootInfo where
  childCount : Nat
  textLen : Nat
  imgSrcCount : Nat
deriving DecidableEq, Repr

/-- A static snapshot of the DOM as the probe observes it: `query sel`
is the element `document.querySelector(sel)` finds (none when absent);
`bodyTextLen` is the trimmed body text length (0 when the body is
absent), `bodyImgSrcCount` the page-wide count of `img` elements with a
nonempty `src`, and `totalImgCount` the page-wide count of all `img`
elements (the count the timeout branch reports). -/
structure Dom where
  query : String → Option RootInfo
  bodyTextLen : Nat
  bodyImgSrcCount : Nat
  totalImgCount : Nat

/-- The prioritized SPA-root selector list of `WAIT_FOR_CONTENT_JS`. -/
def SPA_SELECTORS : List String :=
  [("#root"), ("#app"), ("#__next"), ("#__nuxt"), ("[data-reactroot]"), ("main")]

/-- The record returned by `WAIT_FOR_CONTENT_JS`. -/
structure ContentState where
  ready : Bool
  textLen : Nat
  imgCount : Nat
  source : String
deriving DecidableEq, Repr

/-- The per-root condition of the probe loop: the element has children
and either more than 50 characters of text or more than one
nonempty-`src` image. -/
def rootQualifies (info : RootInfo) : Bool :=
  decide (0 < info.childCount ∧ (50 < info.textLen ∨ 1 < info.imgSrcCount))

/-- The selector loop of `WAIT_FOR_CONTENT_JS`: walk the selector list
in order; the first present element with children and qualifying
content yields `ready=true` with that selector as `source` (on a static
DOM the one-second re-read returns the same counts); every other
selector is skipped. -/
def probeRoots (dom : Dom) : List String → Option ContentState
  | [] => none
  | sel :: rest =>
    match dom.query sel with
    | some info =>
      if rootQualifies info then
        some ⟨true, info.textLen, info.imgSrcCount, sel⟩
      else probeRoots dom rest
    | none => probeRoots dom rest

/-- Shallow embedding of `WAIT_FOR_CONTENT_JS` over a static DOM
snapshot.  Because the snapshot does not change while the probe polls at
500 ms intervals within its 20000 ms budget, the first iteration decides
the `ready=true` cases: a qualifying SPA root wins, else a body with
more than 200 characters of text or more than 3 nonempty-`src` images;
otherwise the budget expires and the timeout branch reports the body
text length and the total `img` element count with `source="timeout"`. -/
def waitForContent (dom : Dom) : ContentState :=
  match probeRoots dom SPA_SELECTORS with
  | some st => st
  | none =>
    if 200 < dom.bodyTextLen ∨ 3 < dom.bodyImgSrcCount then
      ⟨true, dom.bodyTextLen, dom.bodyImgSrcCount, ("body")⟩
    else
      ⟨false, dom.bodyTextLen, dom.totalImgCount, ("timeout")⟩

/-- Whether the element a selector finds qualifies for the probe. -/
def selQualifies (dom : Dom) (sel : String) : Bool :=
  match dom.query sel with
  | some info => rootQualifies info
  | none => false

/-- The first selector in `SPA_SELECTORS` whose element qualifies,
written with `List.find?` as an independent characterization of the
probe loop. -/
def firstQualifying (dom : Dom) : Option String :=
  SPA_SELECTORS.find? (selQualifies dom)

/-- A non-qualifying selector is skipped by the probe loop. -/
theorem probeRoots_cons_of_not_qual (dom : Dom) (s : String)
    (rest : List String) (hq : selQualifies dom s = false) :
    probeRoots dom (s :: rest) = probeRoots dom rest := by
  unfold selQualifies at hq
  cases hdq : dom.query s with
  | some i =>
    rw [hdq] at hq
    simp only at hq
    simp [probeRoots, hdq, hq]
  | none => simp [probeRoots, hdq]

/-- The probe loop returns none exactly when no selector qualifies, and
otherwise reports the first qualifying selector with the counts of its element (stated for an arbitrary selector list). -/
theorem probeRoots_eq_find (dom : Dom) (sels : List String) :
    (∀ sel info,
      sels.find? (selQualifies dom) = some sel →
      dom.query sel = some info →
      probeRoots dom sels = some ⟨true, info.textLen, info.imgSrcCount, sel⟩) ∧
    (sels.find? (selQualifies dom) = none → probeRoots dom sels = none) := by
  induction sels with
  | nil => exact ⟨fun sel info h => by simp at h, fun _ => rfl⟩
  | cons s rest ih =>
    cases hq : selQualifies dom s with
    | true =>
      refine ⟨fun sel info hfind hquery => ?_, fun hfind => ?_⟩
      · rw [List.find?_cons_of_pos _ hq] at hfind
        injection hfind with hsel
        subst hsel
        unfold selQualifies at hq
        rw [hquery] at hq
        simp only at hq
        simp [probeRoots, hquery, hq]
      · rw [List.find?_cons_of_pos _ hq] at hfind
        cases hfind
    | false =>
      have hskip := probeRoots_cons_of_not_qual dom s rest hq
      refine ⟨fun sel info hfind hquery => ?_, fun hfind => ?_⟩
      · rw [List.find?_cons_of_neg _ (by simp [hq])] at hfind
        rw [hskip]
        exact ih.1 sel info hfind hquery
      · rw [List.find?_cons_of_neg _ (by simp [hq])] at hfind
        rw [hskip]
        exact ih.2 hfind

/-- C6: the readiness probe returns `ready=true` with the first
qualifying SPA-root selector as `source` and the counts of that root when
one qualifies (children present, more than 50 characters of text or
more than one image); `ready=true, source="body"` with the body counts
when no root qualifies but the body has more than 200 characters of
text or more than 3 images; and `ready=false, source="timeout"` with
the last observed counts when neither condition is ever met within the
20000 ms budget. -/
theorem waitForContent_spec (dom : Dom) :
    (∀ sel info, firstQualifying dom = some sel →
      dom.query sel = some info →
      waitForContent dom = ⟨true, info.textLen, info.imgSrcCount, sel⟩) ∧
    (firstQualifying dom = none →
      (200 < dom.bodyTextLen ∨ 3 < dom.bodyImgSrcCount) →
      waitForContent dom = ⟨true, dom.bodyTextLen, dom.bodyImgSrcCount, ("body")⟩) ∧
    (firstQualifying dom = none →
      dom.bodyTextLen ≤ 200 → dom.bodyImgSrcCount ≤ 3 →
      waitForContent dom = ⟨false, dom.bodyTextLen, dom.totalImgCount, ("timeout")⟩) := by
  refine ⟨fun sel info hfind hquery => ?_, fun hfind hbody => ?_, fun hfind hbt hbi => ?_⟩
  · have := (probeRoots_eq_find dom SPA_SELECTORS).1 sel info hfind hquery
    simp only [waitForContent, this]
  · have := (probeRoots_eq_find dom SPA_SELECTORS).2 hfind
    simp only [waitForContent, this]
    rw [if_pos hbody]
  · have := (probeRoots_eq_find dom SPA_SELECTORS).2 hfind
    simp only [waitForContent, this]
    rw [if_neg (by omega)]

/-- A DOM whose `#app` root has 2 children and 120 characters of text
(and nothing else). -/
def domSpa : Dom :=
  ⟨fun sel => if sel = ("#app") then some ⟨2, 120, 0⟩ else none, 120, 0, 0⟩

/-- A DOM with no SPA root at all and a 600-character body. -/
def domBody : Dom :=
  ⟨fun _ => none, 600, 0, 0⟩

/-- A DOM with no SPA root, 10 characters of body text, no image with a
`src`, and 2 `img` elements in total. -/
def domEmpty : Dom :=
  ⟨fun _ => none, 10, 0, 2⟩

/-- Witness for `waitForContent_spec`: the three scenarios at concrete
DOM snapshots. -/
theorem waitForContent_spec_witness :
    waitForContent domSpa = ⟨true, 120, 0, ("#app")⟩ ∧
    waitForContent domBody = ⟨true, 600, 0, ("body")⟩ ∧
    waitForContent domEmpty = ⟨false, 10, 2, ("timeout")⟩ :=
  ⟨(waitForContent_spec domSpa).1 ("#app") ⟨2, 120, 0⟩ (by decide) (by decide),
   (waitForContent_spec domBody).2.1 (by decide) (Or.inl (by decide)),
   (waitForContent_spec domEmpty).2.2 (by decide) (by decide) (by decide)⟩

/-! ### Extraction transform (src/app/services/image_extraction_service.py) -/

/-- Position data captured per image by `EXTRACT_IMAGES_JS`
(`getBoundingClientRect`, rounded; `y` may be negative for scrolled-out
elements). -/
structure Position where
  x : Int
  y : Int
  visible : Bool
deriving DecidableEq, Repr

/-- A raw image record as produced by the in-page `EXTRACT_IMAGES_JS`
query: source, intrinsic size (`naturalWidth || 0`, a nonnegative
count), format guess, position, and heuristic hints. -/
structure RawImage where
  src : String
  srcset : Option String
  alt : String
  width : Nat
  height : Nat
  format : String
  position : Position
  containsLogo : Bool
  containsProductKeywords : Bool
  inHeader : Bool
  isLazyLoaded : Bool
  className : String
  parentTag : Option String
deriving DecidableEq, Repr

/-- The Python test `src.startswith("data:")`, embedded over the character
data of the string (the list-level prefix test) so the predicate can be
evaluated in proofs. -/
def isDataUri (s : String) : Bool :=
  ("data:").data.isPrefixOf s.data

/-- Shallow embedding of `_filter_images` (lines 136-147): the loop with
its three `continue` branches — below the minimum dimensions, exactly
1x1, empty or `data:`-scheme source — appending every surviving image in
order. -/
def filter_images (images : List RawImage) (minWidth minHeight : Nat) :
    List RawImage :=
  match images with
  | [] => []
  | img :: rest =>
    if img.width < minWidth ∨ img.height < minHeight then
      filter_images rest minWidth minHeight
    else if img.width = 1 ∧ img.height = 1 then
      filter_images rest minWidth minHeight
    else if img.src = ("") ∨ isDataUri img.src then
      filter_images rest minWidth minHeight
    else
      img :: filter_images rest minWidth minHeight

/-- The drop condition of the filter, written as one predicate the way
the claim states it: a record is dropped iff its width or height is
below the minimums, or it is exactly 1x1, or its source is empty or
begins with the `data:` scheme. -/
def DropsImage (minWidth minHeight : Nat) (img : RawImage) : Prop :=
  img.width < minWidth ∨ img.height < minHeight ∨
  (img.width = 1 ∧ img.height = 1) ∨
  img.src = ("") ∨ isDataUri img.src = true

instance (minWidth minHeight : Nat) (img : RawImage) :
    Decidable (DropsImage minWidth minHeight img) := by
  unfold DropsImage; infer_instance

/-- Unfolding equation of the filter loop on a cons cell. -/
theorem filter_images_cons (img : RawImage) (rest : List RawImage)
    (minWidth minHeight : Nat) :
    filter_images (img :: rest) minWidth minHeight =
      if img.width < minWidth ∨ img.height < minHeight then
        filter_images rest minWidth minHeight
      else if img.width = 1 ∧ img.height = 1 then
        filter_images rest minWidth minHeight
      else if img.src = ("") ∨ isDataUri img.src then
        filter_images rest minWidth minHeight
      else
        img :: filter_images rest minWidth minHeight := rfl

/-- The filter loop equals a `List.filter` with the keep predicate
(shared helper for the filter and count claims). -/
theorem filter_images_eq_filter (images : List RawImage)
    (minWidth minHeight : Nat) :
    filter_images images minWidth minHeight =
      images.filter fun img => decide (¬ DropsImage minWidth minHeight img) := by
  induction images with
  | nil => rfl
  | cons img rest ih =>
    rw [filter_images_cons]
    by_cases hdrop : DropsImage minWidth minHeight img
    · rw [List.filter_cons_of_neg (by simp [hdrop])]
      unfold DropsImage at hdrop
      split_ifs with h1 h2 h3
      · exact ih
      · exact ih
      · exact ih
      · exact absurd hdrop (fun hd =>
          hd.elim (fun h => h1 (Or.inl h)) (fun hd2 =>
            hd2.elim (fun h => h1 (Or.inr h)) (fun hd3 =>
              hd3.elim h2 h3)))
    · rw [List.filter_cons_of_pos (by simp [hdrop])]
      unfold DropsImage at hdrop
      split_ifs with h1 h2 h3
      · exact absurd (h1.elim Or.inl (fun h => Or.inr (Or.inl h))) hdrop
      · exact absurd (Or.inr (Or.inr (Or.inl h2))) hdrop
      · exact absurd (Or.inr (Or.inr (Or.inr h3))) hdrop
      · rw [ih]

/-- C9: `_filter_images` drops a record iff its width or height is below
the minimums, or it is exactly 1x1 (even when the minimums are 0), or
its source is empty or begins with the `data:` scheme — and keeps every
other record, in order: the loop equals filtering with exactly that
predicate. -/
theorem filter_images_spec (images : List RawImage) (minWidth minHeight : Nat) :
    filter_images images minWidth minHeight =
      images.filter fun img => decide (¬ DropsImage minWidth minHeight img) :=
  filter_images_eq_filter images minWidth minHeight

/-! ### Classification (`_classify_images`, lines 150-190) -/

/-- Page context reported by `EXTRACT_IMAGES_JS`: viewport size and
scroll height (the latter unused by classification). -/
structure PageContext where
  viewportWidth : Nat
  viewportHeight : Nat
  scrollHeight : Nat
deriving DecidableEq, Repr

/-- The public extracted-image record built by `_classify_images`. -/
structure ExtractedImage where
  src : String
  srcset : Option String
  alt : String
  width : Nat
  height : Nat
  format : String
  position : Position
  classification : String
  isLazyLoaded : Bool
deriving DecidableEq, Repr

/-- The `if`/`elif` chain of `_classify_images` deciding the label of one
image.  The source compares against the floats `vh * 0.2` and
`vw * 0.5`; the embedding uses the exact rational comparisons
`5 * y < vh` and `2 * width > vw`, which agree with the Python float
comparisons away from the float-rounding boundary. -/
def classifyImage (ctx : PageContext) (img : RawImage) : String :=
  if 5 * img.position.y < (ctx.viewportHeight : Int) ∧
      2 * img.width > ctx.viewportWidth ∧ 400 < img.height then ("hero")
  else if img.containsLogo ∧ img.inHeader ∧ img.width < 300 then ("logo")
  else if 300 ≤ img.width ∧ 200 ≤ img.height ∧ img.containsProductKeywords then
    ("product")
  else if img.width < 100 ∧ img.height < 100 then ("icon")
  else if 100 ≤ img.width ∧ img.width < 400 ∧ 100 ≤ img.height ∧
      img.height < 400 then ("thumbnail")
  else ("content")

/-- Shallow embedding of `_classify_images`: map each surviving image to
the public record carrying its label. -/
def classify_images (images : List RawImage) (ctx : PageContext) :
    List ExtractedImage :=
  images.map fun img =>
    ⟨img.src, img.srcset, img.alt, img.width, img.height, img.format,
      img.position, classifyImage ctx img, img.isLazyLoaded⟩

/-- The hero geometric test as the spec lists it: `y` in the top 20% of
the viewport, width above 50% of the viewport width, height above
400 px. -/
def heroTest (ctx : PageContext) (img : RawImage) : Bool :=
  decide (5 * img.position.y < (ctx.viewportHeight : Int)) &&
  decide (2 * img.width > ctx.viewportWidth) && decide (400 < img.height)

/-- The logo test: logo hint, in-header hint, width below 300 px. -/
def logoTest (img : RawImage) : Bool :=
  img.containsLogo && img.inHeader && decide (img.width < 300)

/-- The product test: at least 300x200 and a product-keyword hint. -/
def productTest (img : RawImage) : Bool :=
  decide (300 ≤ img.width) && decide (200 ≤ img.height) &&
  img.containsProductKeywords

/-- The icon test: strictly below 100x100. -/
def iconTest (img : RawImage) : Bool :=
  decide (img.width < 100) && decide (img.height < 100)

/-- The thumbnail test: both dimensions in 100..399. -/
def thumbnailTest (img : RawImage) : Bool :=
  decide (100 ≤ img.width) && decide (img.width < 400) &&
  decide (100 ≤ img.height) && decide (img.height < 400)

/-- The five labelled rules in the precedence order the spec lists. -/
def classificationRules (ctx : PageContext) (img : RawImage) :
    List (String × Bool) :=
  [ (("hero"), heroTest ctx img)
  , (("logo"), logoTest img)
  , (("product"), productTest img)
  , (("icon"), iconTest img)
  , (("thumbnail"), thumbnailTest img) ]

/-- First-matching-rule semantics over the rule list, defaulting to
`content`. -/
def firstMatchLabel (ctx : PageContext) (img : RawImage) : String :=
  match (classificationRules ctx img).find? (fun r => r.2) with
  | some r => r.1
  | none => ("content")

/-- The hero test holds iff the first branch condition of
`_classify_images` holds. -/
theorem heroTest_iff (ctx : PageContext) (img : RawImage) :
    heroTest ctx img = true ↔
      (5 * img.position.y < (ctx.viewportHeight : Int) ∧
        2 * img.width > ctx.viewportWidth ∧ 400 < img.height) := by
  simp [heroTest, and_assoc]

/-- The logo test holds iff the second branch condition holds. -/
theorem logoTest_iff (img : RawImage) :
    logoTest img = true ↔
      (img.containsLogo = true ∧ img.inHeader = true ∧ img.width < 300) := by
  simp [logoTest, and_assoc]

/-- The product test holds iff the third branch condition holds. -/
theorem productTest_iff (img : RawImage) :
    productTest img = true ↔
      (300 ≤ img.width ∧ 200 ≤ img.height ∧
        img.containsProductKeywords = true) := by
  simp [productTest, and_assoc]

/-- The icon test holds iff the fourth branch condition holds. -/
theorem iconTest_iff (img : RawImage) :
    iconTest img = true ↔ (img.width < 100 ∧ img.height < 100) := by
  simp [iconTest]

/-- The thumbnail test holds iff the fifth branch condition holds. -/
theorem thumbnailTest_iff (img : RawImage) :
    thumbnailTest img = true ↔
      (100 ≤ img.width ∧ img.width < 400 ∧ 100 ≤ img.height ∧
        img.height < 400) := by
  simp [thumbnailTest, and_assoc]

/-- Evaluating the first-match semantics over the rule list yields a
nested conditional in rule order. -/
theorem firstMatchLabel_eq (ctx : PageContext) (img : RawImage) :
    firstMatchLabel ctx img =
      if heroTest ctx img = true then ("hero")
      else if logoTest img = true then ("logo")
      else if productTest img = true then ("product")
      else if iconTest img = true then ("icon")
      else if thumbnailTest img = true then ("thumbnail")
      else ("content") := by
  unfold firstMatchLabel classificationRules
  cases h1 : heroTest ctx img <;> cases h2 : logoTest img <;>
    cases h3 : productTest img <;> cases h4 : iconTest img <;>
      cases h5 : thumbnailTest img <;> rfl

/-- C8: `_classify_images` assigns every surviving image exactly one
label, equal to the first matching rule in precedence order
hero, logo, product, icon, thumbnail, with default `content`; in
particular an image passing both the hero geometric test and the logo
test is classified `hero`, and the output records carry exactly these
labels. -/
theorem classifyImage_first_match (ctx : PageContext) (img : RawImage)
    (images : List RawImage) :
    classifyImage ctx img = firstMatchLabel ctx img ∧
    (heroTest ctx img = true → logoTest img = true →
      classifyImage ctx img = ("hero")) ∧
    (classify_images images ctx).map (fun e => e.classification) =
      images.map (classifyImage ctx) := by
  refine ⟨?_, ?_, ?_⟩
  · rw [firstMatchLabel_eq]
    unfold classifyImage
    simp only [heroTest_iff, logoTest_iff, productTest_iff, iconTest_iff,
      thumbnailTest_iff]
  · intro hh _
    unfold classifyImage
    rw [if_pos ((heroTest_iff ctx img).mp hh)]
  · simp [classify_images]

/-- A 500x800 viewport. -/
def ctxHeroLogo : PageContext := ⟨500, 800, 2000⟩

/-- An image passing both the hero geometric test (y=10, 280 > 250,
500 > 400) and the logo test (hints set, 280 < 300). -/
def imgHeroLogo : RawImage :=
  ⟨("logo-banner.png"), none, ("logo"), 280, 500, ("png"), ⟨0, 10, true⟩,
    true, false, true, false, ("logo"), some ("header")⟩

/-- Witness for `classifyImage_first_match`: the hero-and-logo image is
classified `hero`. -/
theorem classifyImage_first_match_witness :
    classifyImage ctxHeroLogo imgHeroLogo = ("hero") :=
  (classifyImage_first_match ctxHeroLogo imgHeroLogo []).2.1
    (by decide) (by decide)

/-! ### Result counts of `extract_images` (lines 293-331) -/

/-- The result assembled by `extract_images._do_extract` after the
in-page query: classified images plus the count of records dropped by
the filter (`len(all_images) - len(filtered)`) and the lazy-loaded
count from the page query. -/
structure ExtractInner where
  images : List ExtractedImage
  filteredCount : Nat
  lazyLoadedCount : Nat
deriving DecidableEq, Repr

/-- Shallow embedding of the pure transform tail of
`extract_images._do_extract`: filter, truncate to `maxImages`, classify. -/
def doExtractTransform (allImages : List RawImage) (ctx : PageContext)
    (minWidth minHeight maxImages lazyCount : Nat) : ExtractInner :=
  let filtered := filter_images allImages minWidth minHeight
  let limited := filtered.take maxImages
  let classified := classify_images limited ctx
  ⟨classified, allImages.length - filtered.length, lazyCount⟩

/-- The metadata block `extract_images` reports to its caller. -/
structure ExtractMetadata where
  totalImages : Nat
  filteredOut : Nat
  lazyLoadedCount : Nat
deriving DecidableEq, Repr

/-- Shallow embedding of the metadata assembly of `extract_images`:
`totalImages` is the length of the returned (truncated, classified)
list, `filteredOut` the inner filter-drop count. -/
def extractMetadata (inner : ExtractInner) : ExtractMetadata :=
  ⟨inner.images.length, inner.filteredCount, inner.lazyLoadedCount⟩

/-- C10: `filteredOut` counts exactly the records dropped by the filter,
`totalImages` is the length of the `maxImages`-truncated returned list,
and records cut by the truncation are counted in neither — so whenever
the filtered list exceeds `maxImages`, `totalImages + filteredOut` is
strictly less than the number of raw extracted records. -/
theorem extract_counts_spec (allImages : List RawImage) (ctx : PageContext)
    (minWidth minHeight maxImages lazyCount : Nat) :
    (extractMetadata (doExtractTransform allImages ctx minWidth minHeight
        maxImages lazyCount)).filteredOut =
      allImages.length - (filter_images allImages minWidth minHeight).length ∧
    (extractMetadata (doExtractTransform allImages ctx minWidth minHeight
        maxImages lazyCount)).totalImages =
      ((filter_images allImages minWidth minHeight).take maxImages).length ∧
    (maxImages < (filter_images allImages minWidth minHeight).length →
      (extractMetadata (doExtractTransform allImages ctx minWidth minHeight
          maxImages lazyCount)).totalImages +
        (extractMetadata (doExtractTransform allImages ctx minWidth minHeight
            maxImages lazyCount)).filteredOut < allImages.length) := by
  have hle : (filter_images allImages minWidth minHeight).length ≤
      allImages.length := by
    rw [filter_images_eq_filter]
    exact List.length_filter_le _ _
  have htot : (extractMetadata (doExtractTransform allImages ctx minWidth
      minHeight maxImages lazyCount)).totalImages =
      min maxImages (filter_images allImages minWidth minHeight).length := by
    simp [extractMetadata, doExtractTransform, classify_images]
  have hfo : (extractMetadata (doExtractTransform allImages ctx minWidth
      minHeight maxImages lazyCount)).filteredOut =
      allImages.length - (filter_images allImages minWidth minHeight).length :=
    rfl
  refine ⟨hfo, ?_, fun hgt => ?_⟩
  · rw [htot, List.length_take]
  · rw [htot, hfo]
    omega

/-- A 1920x1080 viewport. -/
def ctxPlain : PageContext := ⟨1920, 1080, 3000⟩

/-- A surviving sample image. -/
def imgKeepA : RawImage :=
  ⟨("a.png"), none, (""), 500, 500, ("png"), ⟨0, 0, true⟩,
    false, false, false, false, (""), none⟩

/-- Another surviving sample image. -/
def imgKeepB : RawImage :=
  ⟨("b.png"), none, (""), 500, 500, ("png"), ⟨0, 0, true⟩,
    false, false, false, false, (""), none⟩

/-- A sample image with an empty source, dropped by the filter. -/
def imgNoSrc : RawImage :=
  ⟨(""), none, (""), 500, 500, ("png"), ⟨0, 0, true⟩,
    false, false, false, false, (""), none⟩

/-- Witness for `extract_counts_spec`: three raw records, one dropped by
the filter, `maxImages = 1` — the reported counts sum to 2, strictly
below 3. -/
theorem extract_counts_spec_witness :
    (extractMetadata (doExtractTransform [imgKeepA, imgKeepB, imgNoSrc]
        ctxPlain 0 0 1 0)).totalImages +
      (extractMetadata (doExtractTransform [imgKeepA, imgKeepB, imgNoSrc]
          ctxPlain 0 0 1 0)).filteredOut <
      ([imgKeepA, imgKeepB, imgNoSrc] : List RawImage).length :=
  (extract_counts_spec [imgKeepA, imgKeepB, imgNoSrc] ctxPlain 0 0 1 0).2.2
    (by decide)

end CompanySummery
